import Mathlib

/-!
Shallow embedding of the retirement-planning core: the jurisdictional
progressive-tax calculator (`backend/models/tax_calculator.py`), the
Canadian benefit rule set (`backend/src/models/canadian_rules.py`), the
plan data model (`backend/models/retirement_plan.py`), and the
year-by-year projection engine
(`backend/services/retirement_calculator.py`).

Money and rates are modelled as exact rationals (ℚ); Python floats are
read as their decimal literals.  Python exceptions are modelled with
`Except Err`; exception messages are abstracted into the constructors of
`Err`.  Warning strings produced by the engine are abstracted into the
`Warning` inductive, which carries the same numeric data that the Python
format strings interpolate; only the list structure and order are used by
the theorems.
-/

set_option maxRecDepth 4000

attribute [local semireducible] Rat.add Rat.mul Rat.sub Rat.inv Rat.ofScientific

/-- Error conditions raised by the embedded code (Python `ValueError` /
`KeyError`).  The string payloads of the Python exceptions are abstracted
into constructors. -/
inductive Err where
  /-- `canadian_rules.get_rrif_minimum_factor`: age below 55. -/
  | rrifAgeTooLow : Err
  /-- `canadian_rules.calculate_cpp_adjustment`: start age outside [60, 70]. -/
  | cppStartAgeOutOfRange : Err
  /-- `tax_calculator.calculate_canadian_tax`: the province string is not a
  member value and its upper-cased underscore form is not a member name
  (Python raises `KeyError` from `Province[...]`). -/
  | unknownProvince : Err
  /-- `projections[-1]` on an empty projection list (Python `IndexError`);
  unreachable for validated plans, whose simulated range is nonempty. -/
  | emptyProjections : Err
deriving DecidableEq, Repr

/-! ## Tax Rule Table (`backend/models/tax_calculator.py`) -/

/-- The ten members of `tax_calculator.Province` (a `str` enum). -/
inductive TaxProvince where
  | ontario | britishColumbia | alberta | quebec | manitoba
  | saskatchewan | novaScotia | newBrunswick | princeEdwardIsland
  | newfoundlandAndLabrador
deriving DecidableEq, Repr

/-- A tax bracket `(upper_limit, marginal_rate)`; `none` stands for the
Python `float('inf')` upper limit. -/
def TaxBracket : Type := Option ℚ × ℚ

/-- `TaxCalculator.FEDERAL_BRACKETS` (2024). -/
def FEDERAL_BRACKETS : List TaxBracket :=
  [(some 55867, 0.15), (some 111733, 0.205), (some 173205, 0.26),
   (some 246752, 0.29), (none, 0.33)]

/-- `TaxCalculator.FEDERAL_BASIC_PERSONAL_AMOUNT`. -/
def FEDERAL_BASIC_PERSONAL_AMOUNT : ℚ := 15000

/-- `TaxCalculator.PROVINCIAL_BRACKETS` (2024), one ordered bracket list per
member of the `tax_calculator.Province` enum. -/
def PROVINCIAL_BRACKETS : TaxProvince → List TaxBracket
  | .ontario =>
      [(some 49231, 0.0505), (some 98463, 0.0915), (some 150000, 0.1116),
       (some 220000, 0.1216), (none, 0.1316)]
  | .britishColumbia =>
      [(some 45654, 0.0506), (some 91310, 0.077), (some 104835, 0.105),
       (some 127299, 0.1229), (some 172602, 0.147), (some 240716, 0.168),
       (none, 0.205)]
  | .alberta =>
      [(some 142292, 0.10), (some 170751, 0.12), (some 227668, 0.13),
       (some 341502, 0.14), (none, 0.15)]
  | .quebec =>
      [(some 49275, 0.15), (some 98540, 0.20), (some 119910, 0.24),
       (none, 0.2575)]
  | .manitoba =>
      [(some 36842, 0.108), (some 79625, 0.1275), (none, 0.174)]
  | .saskatchewan =>
      [(some 49720, 0.105), (some 142058, 0.125), (none, 0.145)]
  | .novaScotia =>
      [(some 29590, 0.0879), (some 59180, 0.1495), (some 93000, 0.1667),
       (some 150000, 0.175), (none, 0.21)]
  | .newBrunswick =>
      [(some 47715, 0.094), (some 95431, 0.14), (some 176756, 0.16),
       (none, 0.195)]
  | .princeEdwardIsland =>
      [(some 31984, 0.098), (some 63969, 0.138), (none, 0.167)]
  | .newfoundlandAndLabrador =>
      [(some 41457, 0.087), (some 82913, 0.145), (some 148027, 0.158),
       (some 207239, 0.173), (some 264750, 0.183), (some 529500, 0.193),
       (some 1059000, 0.198), (none, 0.208)]

/-- `TaxCalculator.PROVINCIAL_BASIC_AMOUNTS` (2024).  The Python lookup is
`dict.get(province, 10000)`; every enum member is present, so the function
is total and the default is dead. -/
def PROVINCIAL_BASIC_AMOUNTS : TaxProvince → ℚ
  | .ontario => 11865
  | .britishColumbia => 12580
  | .alberta => 21885
  | .quebec => 17183
  | .manitoba => 15000
  | .saskatchewan => 17661
  | .novaScotia => 8481
  | .newBrunswick => 12458
  | .princeEdwardIsland => 12000
  | .newfoundlandAndLabrador => 10382

/-- Loop body of `TaxCalculator._calculate_bracket_tax`: accumulate over the
brackets, stopping at the bracket containing `income`.  `prev` is the
Python `previous_limit`, `tax` the running accumulator; falling off the end
of the list returns the accumulator, as the Python `for` loop does. -/
def bracketTaxAux (income : ℚ) : ℚ → ℚ → List TaxBracket → ℚ
  | _, tax, [] => tax
  | prev, tax, (limit, rate) :: rest =>
    match limit with
    | none => tax + (income - prev) * rate
    | some l =>
      if income ≤ l then tax + (income - prev) * rate
      else bracketTaxAux income l (tax + (l - prev) * rate) rest

/-- `TaxCalculator._calculate_bracket_tax`. -/
def calculate_bracket_tax (income : ℚ) (brackets : List TaxBracket) : ℚ :=
  if income ≤ 0 then 0 else bracketTaxAux income 0 0 brackets

/-- Loop body of `TaxCalculator._get_marginal_rate`: the rate of the first
bracket whose upper limit is ≥ income; `none` when the loop falls through. -/
def marginalRateAux (income : ℚ) : List TaxBracket → Option ℚ
  | [] => none
  | (limit, rate) :: rest =>
    match limit with
    | none => some rate
    | some l => if income ≤ l then some rate else marginalRateAux income rest

/-- `TaxCalculator._get_marginal_rate`; the fall-through default is
`brackets[-1][1]`. -/
def get_marginal_rate (income : ℚ) (brackets : List TaxBracket) : ℚ :=
  if income ≤ 0 then 0
  else (marginalRateAux income brackets).getD
    (((brackets.getLast?).map (·.2)).getD 0)

/-- Round to the nearest integer, ties to even — the rule Python's
built-in `round` uses, here applied to the exact rational value. -/
def roundHalfEven (x : ℚ) : ℤ :=
  let n := x.floor
  let frac := x - (n : ℚ)
  if frac < 1 / 2 then n
  else if 1 / 2 < frac then n + 1
  else if n % 2 = 0 then n else n + 1

/-- Python's `round(x, 2)`. -/
def round2 (x : ℚ) : ℚ := (roundHalfEven (x * 100) : ℚ) / 100

/-- Result dictionary of `TaxCalculator.calculate_tax`. -/
structure TaxBreakdown where
  federal_tax : ℚ
  provincial_tax : ℚ
  total_tax : ℚ
  effective_rate : ℚ
  marginal_rate : ℚ
deriving DecidableEq, Repr

/-- `TaxCalculator.calculate_tax`: federal + provincial tax with basic
personal amounts, zero for non-positive income. -/
def calculate_tax (taxable_income : ℚ) (province : TaxProvince) : TaxBreakdown :=
  if taxable_income ≤ 0 then
    { federal_tax := 0, provincial_tax := 0, total_tax := 0,
      effective_rate := 0, marginal_rate := 0 }
  else
    let federal_taxable := max 0 (taxable_income - FEDERAL_BASIC_PERSONAL_AMOUNT)
    let provincial_basic := PROVINCIAL_BASIC_AMOUNTS province
    let provincial_taxable := max 0 (taxable_income - provincial_basic)
    let federal_tax := calculate_bracket_tax federal_taxable FEDERAL_BRACKETS
    let federal_marginal := get_marginal_rate federal_taxable FEDERAL_BRACKETS
    let provincial_brackets := PROVINCIAL_BRACKETS province
    let provincial_tax := calculate_bracket_tax provincial_taxable provincial_brackets
    let provincial_marginal := get_marginal_rate provincial_taxable provincial_brackets
    let total_tax := federal_tax + provincial_tax
    { federal_tax := round2 federal_tax,
      provincial_tax := round2 provincial_tax,
      total_tax := round2 total_tax,
      effective_rate := round2 (total_tax / taxable_income * 100),
      marginal_rate := round2 ((federal_marginal + provincial_marginal) * 100) }

/-- The values of the ten `tax_calculator.Province` enum members. -/
def taxProvinceValue : TaxProvince → String
  | .ontario => "Ontario"
  | .britishColumbia => "British Columbia"
  | .alberta => "Alberta"
  | .quebec => "Quebec"
  | .manitoba => "Manitoba"
  | .saskatchewan => "Saskatchewan"
  | .novaScotia => "Nova Scotia"
  | .newBrunswick => "New Brunswick"
  | .princeEdwardIsland => "Prince Edward Island"
  | .newfoundlandAndLabrador => "Newfoundland and Labrador"

/-- The names of the ten `tax_calculator.Province` enum members, used by the
`Province[province_upper]` fallback lookup. -/
def taxProvinceName : TaxProvince → String
  | .ontario => "ONTARIO"
  | .britishColumbia => "BRITISH_COLUMBIA"
  | .alberta => "ALBERTA"
  | .quebec => "QUEBEC"
  | .manitoba => "MANITOBA"
  | .saskatchewan => "SASKATCHEWAN"
  | .novaScotia => "NOVA_SCOTIA"
  | .newBrunswick => "NEW_BRUNSWICK"
  | .princeEdwardIsland => "PRINCE_EDWARD_ISLAND"
  | .newfoundlandAndLabrador => "NEWFOUNDLAND_AND_LABRADOR"

/-- All ten members of the `tax_calculator.Province` enum. -/
def taxProvinces : List TaxProvince :=
  [.ontario, .britishColumbia, .alberta, .quebec, .manitoba, .saskatchewan,
   .novaScotia, .newBrunswick, .princeEdwardIsland, .newfoundlandAndLabrador]

/-- Python's `province.upper().replace(" ", "_")`, character by character
(upper-casing never produces or consumes a space, so the char-wise form is
equivalent). -/
def upperUnderscore (s : String) : String :=
  String.mk (s.data.map (fun c => if c = ' ' then '_' else c.toUpper))

/-- Province-string conversion in `calculate_canadian_tax`: first
`Province(province)` (match on the member value), then on `ValueError` the
fallback `Province[province.upper().replace(" ", "_")]` (match on the
member name); `none` models the uncaught `KeyError` when both fail. -/
def provinceOfString (s : String) : Option TaxProvince :=
  match taxProvinces.find? (fun p => taxProvinceValue p = s) with
  | some p => some p
  | none =>
    let u := upperUnderscore s
    taxProvinces.find? (fun p => taxProvinceName p = u)

/-- Result dictionary of `calculate_canadian_tax`: the `calculate_tax`
breakdown plus `after_tax_income` and `income`. -/
structure CanadianTaxResult where
  breakdown : TaxBreakdown
  after_tax_income : ℚ
  income : ℚ
deriving DecidableEq, Repr

/-- `calculate_canadian_tax`: convenience wrapper converting the province
string to the enum, then delegating to `TaxCalculator.calculate_tax`.  An
unrecognized string raises (`Err.unknownProvince`). -/
def calculate_canadian_tax (taxable_income : ℚ) (province : String) :
    Except Err CanadianTaxResult :=
  match provinceOfString province with
  | none => .error .unknownProvince
  | some p =>
    let result := calculate_tax taxable_income p
    .ok { breakdown := result,
          after_tax_income := taxable_income - result.total_tax,
          income := taxable_income }

/-! ## Benefit Rule Set (`backend/src/models/canadian_rules.py`) -/

/-- `CanadianRetirementRules.RRIF_MINIMUM_START_AGE`. -/
def RRIF_MINIMUM_START_AGE : ℕ := 72

/-- `CanadianRetirementRules.OAS_MAX_MONTHLY_2024` (ages 65–74). -/
def OAS_MAX_MONTHLY_2024 : ℚ := 713.34

/-- `CanadianRetirementRules.OAS_MAX_MONTHLY_75_PLUS`. -/
def OAS_MAX_MONTHLY_75_PLUS : ℚ := 784.67

/-- `CanadianRetirementRules.OAS_CLAWBACK_THRESHOLD_2024`. -/
def OAS_CLAWBACK_THRESHOLD_2024 : ℚ := 90997

/-- `CanadianRetirementRules.OAS_CLAWBACK_RATE`. -/
def OAS_CLAWBACK_RATE : ℚ := 0.15

/-- `CanadianRetirementRules.RRIF_FACTORS`, the prescribed age→factor table
for ages 55–95, as the Python lookup `RRIF_FACTORS.get(age, 0.20)`. -/
def RRIF_FACTORS (age : ℕ) : ℚ :=
  match age with
  | 55 => 0.0286 | 56 => 0.0291 | 57 => 0.0297 | 58 => 0.0303 | 59 => 0.0309
  | 60 => 0.0315 | 61 => 0.0321 | 62 => 0.0327 | 63 => 0.0333 | 64 => 0.0340
  | 65 => 0.0347 | 66 => 0.0354 | 67 => 0.0361 | 68 => 0.0369 | 69 => 0.0377
  | 70 => 0.0385 | 71 => 0.0528 | 72 => 0.0540 | 73 => 0.0553 | 74 => 0.0567
  | 75 => 0.0582 | 76 => 0.0598 | 77 => 0.0617 | 78 => 0.0636 | 79 => 0.0658
  | 80 => 0.0685 | 81 => 0.0718 | 82 => 0.0757 | 83 => 0.0804 | 84 => 0.0863
  | 85 => 0.0938 | 86 => 0.1033 | 87 => 0.1157 | 88 => 0.1330 | 89 => 0.1533
  | 90 => 0.1742 | 91 => 0.1964 | 92 => 0.2000 | 93 => 0.2000 | 94 => 0.2000
  | 95 => 0.2000
  | _ => 0.20

/-- `CanadianRetirementRules.get_rrif_minimum_factor`: below 55 raises;
ages ≤ 70 use `1 / (90 - age)`; 95+ is 20%; otherwise the prescribed
table. -/
def get_rrif_minimum_factor (age : ℕ) : Except Err ℚ :=
  if age < 55 then .error .rrifAgeTooLow
  else if age ≤ 70 then .ok (1 / (90 - (age : ℚ)))
  else if 95 ≤ age then .ok 0.20
  else .ok (RRIF_FACTORS age)

/-- `CanadianRetirementRules.calculate_rrif_minimum_withdrawal`. -/
def calculate_rrif_minimum_withdrawal (balance : ℚ) (age : ℕ) : Except Err ℚ :=
  (get_rrif_minimum_factor age).map (fun factor => balance * factor)

/-- `CanadianRetirementRules.calculate_cpp_adjustment`: early reduction of
0.6%/month before 65, late increase of 0.7%/month after 65 capped at 60
months; start age outside [60, 70] raises. -/
def calculate_cpp_adjustment (age : ℕ) (base_amount : ℚ) : Except Err ℚ :=
  if age < 60 ∨ 70 < age then .error .cppStartAgeOutOfRange
  else if age < 65 then
    let months_early : ℕ := (65 - age) * 12
    .ok (base_amount * (1 - (months_early : ℚ) * 0.006))
  else if 65 < age then
    let months_late : ℕ := min ((age - 65) * 12) 60
    .ok (base_amount * (1 + (months_late : ℚ) * 0.007))
  else .ok base_amount

/-- `CanadianRetirementRules.calculate_oas_clawback`: 15% of income above
the threshold, capped at the gross OAS for the age band. -/
def calculate_oas_clawback (annual_income : ℚ) (age : ℕ) : ℚ :=
  if annual_income ≤ OAS_CLAWBACK_THRESHOLD_2024 then 0
  else
    let base_oas := if 75 ≤ age then OAS_MAX_MONTHLY_75_PLUS * 12
                    else OAS_MAX_MONTHLY_2024 * 12
    min ((annual_income - OAS_CLAWBACK_THRESHOLD_2024) * OAS_CLAWBACK_RATE) base_oas

/-! ## Plan data model (`backend/models/retirement_plan.py`) -/

/-- `retirement_plan.TaxCalculationMode`. -/
inductive TaxCalculationMode where
  | simplified | accurate
deriving DecidableEq, Repr

/-- The thirteen members of `canadian_rules.Province` (a `str` enum), the
type of `RetirementPlanInput.province`. -/
inductive Province where
  | on | bc | ab | qc | mb | sk | ns | nb | pe | nl | yt | nt | nu
deriving DecidableEq, Repr

/-- The string values of the `canadian_rules.Province` members. -/
def provinceValue : Province → String
  | .on => "Ontario"
  | .bc => "British Columbia"
  | .ab => "Alberta"
  | .qc => "Quebec"
  | .mb => "Manitoba"
  | .sk => "Saskatchewan"
  | .ns => "Nova Scotia"
  | .nb => "New Brunswick"
  | .pe => "Prince Edward Island"
  | .nl => "Newfoundland and Labrador"
  | .yt => "Yukon"
  | .nt => "Northwest Territories"
  | .nu => "Nunavut"

/-- `retirement_plan.PensionIncome`. -/
structure PensionIncome where
  monthly_amount : ℚ
  start_year : ℤ
  end_year : Option ℤ := none
  indexing_rate : ℚ := 0
deriving DecidableEq, Repr

/-- `retirement_plan.AdditionalIncome` (same shape as `PensionIncome`). -/
structure AdditionalIncome where
  monthly_amount : ℚ
  start_year : ℤ
  indexing_rate : ℚ := 0
  end_year : Option ℤ := none
deriving DecidableEq, Repr

/-- `retirement_plan.RealEstateHolding`.  `property_type` is only
interpolated into the sale message. -/
structure RealEstateHolding where
  value : ℚ
  real_return : ℚ := 0.01
  sale_age : ℕ
  property_type : String := "primary_residence"
deriving DecidableEq, Repr

/-- `retirement_plan.RetirementPlanInput`. -/
structure RetirementPlanInput where
  current_age : ℕ
  retirement_age : ℕ
  life_expectancy : ℕ
  province : Province
  rrsp_balance : ℚ
  tfsa_balance : ℚ := 0
  non_registered : ℚ := 0
  monthly_contribution : ℚ
  rrsp_real_return : ℚ := 0.02
  tfsa_real_return : ℚ := 0.04
  non_reg_real_return : ℚ := 0.05
  real_estate_holdings : List RealEstateHolding := []
  cpp_monthly : ℚ
  cpp_start_age : ℕ := 65
  oas_start_age : ℕ := 65
  pensions : List PensionIncome := []
  additional_income : List AdditionalIncome := []
  desired_annual_spending : ℚ
  has_spouse : Bool := false
  spouse_age : Option ℕ := none
  tax_calculation_mode : TaxCalculationMode := .simplified
deriving DecidableEq, Repr

/-- The constraints enforced by the Pydantic `Field` bounds and
`field_validator`s of `RetirementPlanInput` and its nested models: a plan
satisfying `ValidPlan` is one the validation layer would accept. -/
@[reducible] def ValidPlan (plan : RetirementPlanInput) : Prop :=
  18 ≤ plan.current_age ∧ plan.current_age ≤ 100 ∧
  55 ≤ plan.retirement_age ∧ plan.retirement_age ≤ 75 ∧
  65 ≤ plan.life_expectancy ∧ plan.life_expectancy ≤ 150 ∧
  plan.current_age ≤ plan.retirement_age ∧
  plan.retirement_age < plan.life_expectancy ∧
  0 ≤ plan.rrsp_balance ∧ 0 ≤ plan.tfsa_balance ∧ 0 ≤ plan.non_registered ∧
  0 ≤ plan.monthly_contribution ∧ plan.monthly_contribution ≤ 10000 ∧
  -0.10 ≤ plan.rrsp_real_return ∧ plan.rrsp_real_return ≤ 0.15 ∧
  -0.10 ≤ plan.tfsa_real_return ∧ plan.tfsa_real_return ≤ 0.15 ∧
  -0.10 ≤ plan.non_reg_real_return ∧ plan.non_reg_real_return ≤ 0.15 ∧
  (∀ h ∈ plan.real_estate_holdings,
    0 < h.value ∧ -0.10 ≤ h.real_return ∧ h.real_return ≤ 0.15 ∧ h.sale_age ≤ 150) ∧
  0 ≤ plan.cpp_monthly ∧ plan.cpp_monthly ≤ 2000 ∧
  60 ≤ plan.cpp_start_age ∧ plan.cpp_start_age ≤ 70 ∧
  65 ≤ plan.oas_start_age ∧ plan.oas_start_age ≤ 70 ∧
  (∀ p ∈ plan.pensions,
    0 < p.monthly_amount ∧ 2024 ≤ p.start_year ∧ p.start_year ≤ 2100 ∧
    -5 ≤ p.indexing_rate ∧ p.indexing_rate ≤ 10) ∧
  (∀ a ∈ plan.additional_income, 0 < a.monthly_amount ∧
    (a.start_year = 0 ∨ a.start_year < a.end_year.getD (a.start_year + 1))) ∧
  0 ≤ plan.desired_annual_spending ∧
  (plan.has_spouse = true → plan.spouse_age.isSome = true) ∧
  18 ≤ plan.spouse_age.getD 18 ∧ plan.spouse_age.getD 18 ≤ 100

/-- Warnings appended to the calculator's `warnings` list; each constructor
carries the data the Python f-string interpolates. -/
inductive Warning where
  /-- "Year {year} (age {age}): Insufficient funds - shortfall of ..." -/
  | insufficientFunds (year : ℕ) (age : ℕ) (shortfall : ℚ)
  /-- "{Property} sold at age {age}: +$... (in today's dollars)" -/
  | propertySale (property_type : String) (age : ℕ) (sale_value : ℚ)
deriving DecidableEq, Repr

/-- Recommendation strings appended by `calculate_plan`; each constructor
stands for one fixed message. -/
inductive Recommendation where
  | planRunsOutOfMoney
  | veryLowFinalBalance
  | strongFinancialPosition
  | planSustainable
  | rrifConversionReminder
  | cppEarlyReduction (start_age : ℕ)
  | cppDelayIncrease (start_age : ℕ)
deriving DecidableEq, Repr

/-- `retirement_plan.YearlyProjection` (the unused optional
`income_breakdown`, never set by the calculator, is omitted). -/
structure YearlyProjection where
  year : ℕ
  age : ℕ
  rrsp_rrif_balance : ℚ
  tfsa_balance : ℚ
  non_registered_balance : ℚ
  total_balance : ℚ
  rrif_withdrawal : ℚ
  cpp_income : ℚ
  oas_income : ℚ
  other_withdrawals : ℚ
  gross_income : ℚ
  taxes_estimated : ℚ
  net_income : ℚ
  spending : ℚ
deriving DecidableEq, Repr

/-- `retirement_plan.RetirementPlanOutput`. -/
structure RetirementPlanOutput where
  input_summary : RetirementPlanInput
  years_to_retirement : ℤ
  retirement_duration : ℤ
  total_years : ℤ
  projections : List YearlyProjection
  total_contributions : ℚ
  final_balance : ℚ
  success : Bool
  warnings : List Warning
  recommendations : List Recommendation
deriving DecidableEq, Repr

/-! ## Projection Engine (`backend/services/retirement_calculator.py`) -/

/-- `RetirementCalculator._calculate_taxes`: flat 25% in simplified mode;
in accurate mode, zero for non-positive income, otherwise
`calculate_canadian_tax(taxable_income, province)['total_tax']`. -/
def calculate_taxes (taxable_income : ℚ) (plan : RetirementPlanInput) : Except Err ℚ :=
  match plan.tax_calculation_mode with
  | .simplified => .ok (taxable_income * 0.25)
  | .accurate =>
    if taxable_income ≤ 0 then .ok 0
    else (calculate_canadian_tax taxable_income (provinceValue plan.province)).map
      (fun r => r.breakdown.total_tax)

/-- Indexed annual amount in `_calculate_pension_for_year`:
`monthly_amount * (1 + indexing_rate) ** (year - start_year) * 12`. -/
def pension_indexed_amount (year : ℤ) (p : PensionIncome) : ℚ :=
  p.monthly_amount * (1 + p.indexing_rate) ^ (year - p.start_year).toNat * 12

/-- `RetirementCalculator._calculate_pension_for_year` (its `current_year`
parameter is unused by the body and omitted).  Zero before `start_year`;
zero after a truthy (non-`None`, nonzero) `end_year`; otherwise the
compounded annual amount. -/
def calculate_pension_for_year (year : ℤ) : Option PensionIncome → ℚ
  | none => 0
  | some p =>
    if year < p.start_year then 0
    else match p.end_year with
      | some e => if e ≠ 0 ∧ e < year then 0 else pension_indexed_amount year p
      | none => pension_indexed_amount year p

/-- The `for pension in plan_input.pensions` accumulation in
`calculate_plan`: each pension is evaluated at
`projection_year = pension.start_year + (current_age - plan.current_age)`.
(The `additional_income` list is never read by the calculator.) -/
def pensionIncomeTotal (plan : RetirementPlanInput) (current_age : ℕ) : ℚ :=
  plan.pensions.foldl (fun acc pension =>
    let projection_year : ℤ :=
      pension.start_year + ((current_age : ℤ) - (plan.current_age : ℤ))
    acc + calculate_pension_for_year projection_year (some pension)) 0

/-- The RRIF block of `calculate_plan`: zero before
`RRIF_MINIMUM_START_AGE` (72); full balance at 100+; otherwise the
prescribed factor at the holder's age or, with a truthy spousal election,
the younger of the two ages. -/
def mandatoryRRIFWithdrawal (plan : RetirementPlanInput) (current_age : ℕ)
    (rrsp_balance : ℚ) : Except Err ℚ :=
  if RRIF_MINIMUM_START_AGE ≤ current_age then
    if 100 ≤ current_age then .ok rrsp_balance
    else
      let withdrawal_age :=
        match plan.spouse_age with
        | some sa =>
          if plan.has_spouse = true ∧ sa ≠ 0 then
            min current_age (sa + (current_age - plan.current_age))
          else current_age
        | none => current_age
      calculate_rrif_minimum_withdrawal rrsp_balance withdrawal_age
  else .ok 0

/-- The OAS block of `calculate_plan`: age-banded base amount, clawback
against the rough income estimate, floored at zero. -/
def oasIncomeForYear (plan : RetirementPlanInput) (current_age : ℕ)
    (rrif_withdrawal cpp_income pension_income : ℚ) : ℚ :=
  if plan.oas_start_age ≤ current_age then
    let monthly_oas := if 75 ≤ current_age then OAS_MAX_MONTHLY_75_PLUS
                       else OAS_MAX_MONTHLY_2024
    let annual_oas := monthly_oas * 12
    let estimated_income := rrif_withdrawal + cpp_income + pension_income
    let clawback := calculate_oas_clawback estimated_income current_age
    max 0 (annual_oas - clawback)
  else 0

/-- Result of the STEP 1 block of `calculate_plan` (cover spending needs):
updated balances, the enlarged `rrif_withdrawal`, the taxable
`rrsp_additional_withdrawal`, `other_withdrawals`, and the warnings list. -/
structure SpendingCover where
  tfsa_balance : ℚ
  non_reg_balance : ℚ
  rrsp_balance : ℚ
  rrif_withdrawal : ℚ
  rrsp_additional_withdrawal : ℚ
  other_withdrawals : ℚ
  warnings : List Warning
deriving DecidableEq, Repr

/-- STEP 1 of `calculate_plan`: if gross income falls short of spending,
draw the shortfall from TFSA, then non-registered, then RRSP/RRIF (the
latter added to `rrif_withdrawal` and tracked as taxable); a residual
shortfall above 100 appends an insufficient-funds warning. -/
def coverSpendingShortfall (year current_age : ℕ)
    (adjusted_spending gross_income : ℚ)
    (tfsa_balance non_reg_balance rrsp_balance rrif_withdrawal : ℚ)
    (warnings : List Warning) : SpendingCover :=
  if gross_income < adjusted_spending then
    let shortfall0 := adjusted_spending - gross_income
    let tfsa_withdrawal := min shortfall0 tfsa_balance
    let shortfall1 := shortfall0 - tfsa_withdrawal
    let non_reg_withdrawal := if 0 < shortfall1 then min shortfall1 non_reg_balance else 0
    let shortfall2 := shortfall1 - non_reg_withdrawal
    let rrsp_additional_withdrawal := if 0 < shortfall2 then min shortfall2 rrsp_balance else 0
    let shortfall3 := shortfall2 - rrsp_additional_withdrawal
    { tfsa_balance := tfsa_balance - tfsa_withdrawal,
      non_reg_balance := non_reg_balance - non_reg_withdrawal,
      rrsp_balance := rrsp_balance - rrsp_additional_withdrawal,
      rrif_withdrawal := rrif_withdrawal + rrsp_additional_withdrawal,
      rrsp_additional_withdrawal := rrsp_additional_withdrawal,
      other_withdrawals := tfsa_withdrawal + non_reg_withdrawal + rrsp_additional_withdrawal,
      warnings :=
        if 100 < shortfall3 then
          warnings ++ [.insufficientFunds year current_age shortfall3]
        else warnings }
  else
    { tfsa_balance := tfsa_balance, non_reg_balance := non_reg_balance,
      rrsp_balance := rrsp_balance, rrif_withdrawal := rrif_withdrawal,
      rrsp_additional_withdrawal := 0, other_withdrawals := 0,
      warnings := warnings }

/-- Result of the STEP 3 block of `calculate_plan` (cover the tax bill). -/
structure TaxCover where
  tfsa_balance : ℚ
  non_reg_balance : ℚ
  other_withdrawals : ℚ
deriving DecidableEq, Repr

/-- STEP 3 of `calculate_plan`: if taxes are positive, draw them from TFSA
then non-registered.  The Python comment claims a remaining tax shortfall
is covered by the general insufficient-funds warning, but no warning is
recorded on this path. -/
def coverTaxBill (taxes_estimated tfsa_balance non_reg_balance other_withdrawals : ℚ) :
    TaxCover :=
  if 0 < taxes_estimated then
    let tfsa_tax_withdrawal :=
      if 0 < tfsa_balance then min taxes_estimated tfsa_balance else 0
    let tax_coverage_needed := taxes_estimated - tfsa_tax_withdrawal
    let non_reg_tax_withdrawal :=
      if 0 < tax_coverage_needed ∧ 0 < non_reg_balance then
        min tax_coverage_needed non_reg_balance
      else 0
    { tfsa_balance := tfsa_balance - tfsa_tax_withdrawal,
      non_reg_balance := non_reg_balance - non_reg_tax_withdrawal,
      other_withdrawals := other_withdrawals + tfsa_tax_withdrawal + non_reg_tax_withdrawal }
  else
    { tfsa_balance := tfsa_balance, non_reg_balance := non_reg_balance,
      other_withdrawals := other_withdrawals }

/-- The real-estate block of `calculate_plan`: each holding whose positive
`sale_age` equals the current age adds its appreciated value to the
non-registered balance and appends an informational sale message to the
warnings list. -/
def realEstateStep (plan : RetirementPlanInput) (current_age : ℕ)
    (acc : ℚ × List Warning) (property : RealEstateHolding) : ℚ × List Warning :=
  if 0 < property.sale_age ∧ current_age = property.sale_age then
    let years_held := current_age - plan.current_age
    let sale_value := property.value * (1 + property.real_return) ^ years_held
    (acc.1 + sale_value,
     acc.2 ++ [.propertySale property.property_type current_age sale_value])
  else acc

/-- The real-estate loop of `calculate_plan` over all holdings. -/
def realEstateSales (plan : RetirementPlanInput) (current_age : ℕ)
    (non_reg_balance : ℚ) (warnings : List Warning) : ℚ × List Warning :=
  plan.real_estate_holdings.foldl (realEstateStep plan current_age)
    (non_reg_balance, warnings)

/-- Engine-internal mutable state threaded through the year loop of
`calculate_plan`. -/
structure SimState where
  rrsp_balance : ℚ
  tfsa_balance : ℚ
  non_reg_balance : ℚ
  total_contributions : ℚ
  projections : List YearlyProjection
  warnings : List Warning
deriving DecidableEq, Repr

/-- The accumulation-phase body of the year loop: contributions split
70/30 between RRSP and TFSA, then each balance grows by its own return;
the emitted projection has all income fields zeroed. -/
def accumulationStep (plan : RetirementPlanInput) (year : ℕ) (st : SimState) : SimState :=
  let current_age := plan.current_age + year
  let annual_contribution := plan.monthly_contribution * 12
  let rrsp1 := st.rrsp_balance + annual_contribution * 0.70
  let tfsa1 := st.tfsa_balance + annual_contribution * 0.30
  let rrsp2 := rrsp1 * (1 + plan.rrsp_real_return)
  let tfsa2 := tfsa1 * (1 + plan.tfsa_real_return)
  let non_reg2 := st.non_reg_balance * (1 + plan.non_reg_real_return)
  let projection : YearlyProjection :=
    { year := year, age := current_age,
      rrsp_rrif_balance := rrsp2, tfsa_balance := tfsa2,
      non_registered_balance := non_reg2,
      total_balance := rrsp2 + tfsa2 + non_reg2,
      rrif_withdrawal := 0, cpp_income := 0, oas_income := 0,
      other_withdrawals := 0, gross_income := 0, taxes_estimated := 0,
      net_income := 0, spending := 0 }
  { st with
    rrsp_balance := rrsp2, tfsa_balance := tfsa2, non_reg_balance := non_reg2,
    total_contributions := st.total_contributions + annual_contribution,
    projections := st.projections ++ [projection] }

/-- The retirement-phase body of the year loop, in the source's order:
mandatory RRIF withdrawal, CPP, pensions, OAS with clawback, gross income,
STEP 1 spending cover, STEP 2 taxes, STEP 3 tax cover, investment
returns, real-estate sales, then the emitted projection. -/
def distributionStep (plan : RetirementPlanInput) (adjusted_cpp : ℚ) (year : ℕ)
    (st : SimState) : Except Err SimState := do
  let current_age := plan.current_age + year
  let adjusted_spending := plan.desired_annual_spending
  let rrif_withdrawal ← mandatoryRRIFWithdrawal plan current_age st.rrsp_balance
  let rrsp0 := st.rrsp_balance - rrif_withdrawal
  let cpp_income := if plan.cpp_start_age ≤ current_age then adjusted_cpp * 12 else 0
  let pension_income := pensionIncomeTotal plan current_age
  let oas_income := oasIncomeForYear plan current_age rrif_withdrawal cpp_income pension_income
  let gross_income := rrif_withdrawal + cpp_income + oas_income + pension_income
  let sc := coverSpendingShortfall year current_age adjusted_spending gross_income
    st.tfsa_balance st.non_reg_balance rrsp0 rrif_withdrawal st.warnings
  let taxable_income := gross_income + sc.rrsp_additional_withdrawal
  let taxes_estimated ← calculate_taxes taxable_income plan
  let tc := coverTaxBill taxes_estimated sc.tfsa_balance sc.non_reg_balance sc.other_withdrawals
  let net_income := gross_income + tc.other_withdrawals - taxes_estimated
  let rrsp3 := sc.rrsp_balance * (1 + plan.rrsp_real_return)
  let tfsa3 := tc.tfsa_balance * (1 + plan.tfsa_real_return)
  let non_reg3 := tc.non_reg_balance * (1 + plan.non_reg_real_return)
  let sale := realEstateSales plan current_age non_reg3 sc.warnings
  let projection : YearlyProjection :=
    { year := year, age := current_age,
      rrsp_rrif_balance := rrsp3, tfsa_balance := tfsa3,
      non_registered_balance := sale.1,
      total_balance := rrsp3 + tfsa3 + sale.1,
      rrif_withdrawal := sc.rrif_withdrawal, cpp_income := cpp_income,
      oas_income := oas_income, other_withdrawals := tc.other_withdrawals,
      gross_income := gross_income, taxes_estimated := taxes_estimated,
      net_income := net_income, spending := adjusted_spending }
  .ok { rrsp_balance := rrsp3, tfsa_balance := tfsa3, non_reg_balance := sale.1,
        total_contributions := st.total_contributions,
        projections := st.projections ++ [projection],
        warnings := sale.2 }

/-- One iteration of the year loop: accumulation before the retirement
age, distribution from it on. -/
def yearStep (plan : RetirementPlanInput) (adjusted_cpp : ℚ) (year : ℕ)
    (st : SimState) : Except Err SimState :=
  if plan.retirement_age ≤ plan.current_age + year then
    distributionStep plan adjusted_cpp year st
  else .ok (accumulationStep plan year st)

/-- The `for year in range(total_years + 1)` loop of `calculate_plan`. -/
def runYears (plan : RetirementPlanInput) (adjusted_cpp : ℚ) :
    List ℕ → SimState → Except Err SimState
  | [], st => .ok st
  | y :: ys, st => do
    let st' ← yearStep plan adjusted_cpp y st
    runYears plan adjusted_cpp ys st'

/-- Recommendation block of `calculate_plan`: a threshold rule on the
final balance, the RRIF-conversion reminder, and the CPP-timing note. -/
def buildRecommendations (plan : RetirementPlanInput) (final_balance : ℚ) :
    List Recommendation :=
  let recs : List Recommendation :=
    if final_balance < 0 then [.planRunsOutOfMoney]
    else if final_balance < 50000 then [.veryLowFinalBalance]
    else if 1000000 < final_balance then [.strongFinancialPosition]
    else [.planSustainable]
  let recs :=
    if plan.current_age ≤ 71 ∧ plan.retirement_age ≤ 71 then
      recs ++ [.rrifConversionReminder]
    else recs
  if plan.cpp_start_age < 65 then recs ++ [.cppEarlyReduction plan.cpp_start_age]
  else if 65 < plan.cpp_start_age then recs ++ [.cppDelayIncrease plan.cpp_start_age]
  else recs

/-- `RetirementCalculator.calculate_plan`: the single operation the core
exposes.  `success = final_balance >= 0 and len(warnings) == 0`. -/
def calculate_plan (plan : RetirementPlanInput) : Except Err RetirementPlanOutput := do
  let years_to_retirement : ℤ := (plan.retirement_age : ℤ) - plan.current_age
  let retirement_duration : ℤ := (plan.life_expectancy : ℤ) - plan.retirement_age
  let total_years : ℤ := (plan.life_expectancy : ℤ) - plan.current_age
  let adjusted_cpp ← calculate_cpp_adjustment plan.cpp_start_age plan.cpp_monthly
  let init : SimState :=
    { rrsp_balance := plan.rrsp_balance, tfsa_balance := plan.tfsa_balance,
      non_reg_balance := plan.non_registered, total_contributions := 0,
      projections := [], warnings := [] }
  let st ← runYears plan adjusted_cpp (List.range (total_years + 1).toNat) init
  match st.projections.getLast? with
  | none => .error .emptyProjections
  | some last =>
    let final_balance := last.total_balance
    let success : Bool := decide (0 ≤ final_balance) && st.warnings.isEmpty
    .ok { input_summary := plan,
          years_to_retirement := years_to_retirement,
          retirement_duration := retirement_duration,
          total_years := total_years,
          projections := st.projections,
          total_contributions := st.total_contributions,
          final_balance := final_balance,
          success := success,
          warnings := st.warnings,
          recommendations := buildRecommendations plan final_balance }

/-! ## Helper lemmas -/

/-- Batteries' computable `Rat.floor` agrees with Mathlib's `Int.floor`. -/
theorem rat_floor_eq_floor (q : ℚ) : q.floor = ⌊q⌋ := by
  rw [Rat.floor_def', Rat.floor_def]

theorem le_roundHalfEven (x : ℚ) : ⌊x⌋ ≤ roundHalfEven x := by
  simp only [roundHalfEven, rat_floor_eq_floor]
  split_ifs <;> omega

theorem roundHalfEven_le (x : ℚ) : roundHalfEven x ≤ ⌊x⌋ + 1 := by
  simp only [roundHalfEven, rat_floor_eq_floor]
  split_ifs <;> omega

theorem roundHalfEven_mono {x y : ℚ} (h : x ≤ y) :
    roundHalfEven x ≤ roundHalfEven y := by
  have hf : ⌊x⌋ ≤ ⌊y⌋ := Int.floor_mono h
  rcases lt_or_eq_of_le hf with hlt | heq
  · have h1 := roundHalfEven_le x
    have h2 := le_roundHalfEven y
    omega
  · simp only [roundHalfEven, rat_floor_eq_floor, ← heq]
    split_ifs <;> first | omega | linarith

theorem round2_mono {x y : ℚ} (h : x ≤ y) : round2 x ≤ round2 y := by
  unfold round2
  have h100 : x * 100 ≤ y * 100 := by linarith
  have := roundHalfEven_mono h100
  have hcast : ((roundHalfEven (x * 100) : ℚ)) ≤ (roundHalfEven (y * 100) : ℚ) := by
    exact_mod_cast this
  linarith

theorem round2_zero : round2 0 = 0 := by decide

theorem round2_nonneg {x : ℚ} (h : 0 ≤ x) : 0 ≤ round2 x := by
  have := round2_mono h
  rw [round2_zero] at this
  exact this

/-- Well-formedness of a bracket list from threshold `prev` upward:
non-negative rates and non-decreasing thresholds.  Every bracket table in
the source satisfies it (checked per jurisdiction below). -/
def bracketsMonoB : ℚ → List TaxBracket → Bool
  | _, [] => true
  | prev, (some l, rate) :: rest =>
    decide (0 ≤ rate) && decide (prev ≤ l) && bracketsMonoB l rest
  | _, (none, rate) :: _ => decide (0 ≤ rate)

theorem bracketTaxAux_ge (income : ℚ) (brs : List TaxBracket) :
    ∀ (prev tax : ℚ), bracketsMonoB prev brs = true → prev ≤ income →
      tax ≤ bracketTaxAux income prev tax brs := by
  induction brs with
  | nil => intro prev tax _ _; simp [bracketTaxAux]
  | cons b rest ih =>
    intro prev tax hm hpi
    obtain ⟨limit, rate⟩ := b
    cases limit with
    | none =>
      simp only [bracketsMonoB, decide_eq_true_eq] at hm
      simp only [bracketTaxAux]
      nlinarith [mul_nonneg (sub_nonneg.mpr hpi) hm]
    | some l =>
      simp only [bracketsMonoB, Bool.and_eq_true, decide_eq_true_eq] at hm
      obtain ⟨⟨hrate, hpl⟩, hrest⟩ := hm
      simp only [bracketTaxAux]
      split_ifs with hil
      · nlinarith [mul_nonneg (sub_nonneg.mpr hpi) hrate]
      · push_neg at hil
        have h1 : tax ≤ tax + (l - prev) * rate := by
          nlinarith [mul_nonneg (sub_nonneg.mpr hpl) hrate]
        exact h1.trans (ih l _ hrest hil.le)

theorem bracketTaxAux_mono (x y : ℚ) (hxy : x ≤ y) (brs : List TaxBracket) :
    ∀ (prev tax : ℚ), bracketsMonoB prev brs = true → prev ≤ x →
      bracketTaxAux x prev tax brs ≤ bracketTaxAux y prev tax brs := by
  induction brs with
  | nil => intro prev tax _ _; simp [bracketTaxAux]
  | cons b rest ih =>
    intro prev tax hm hpx
    obtain ⟨limit, rate⟩ := b
    cases limit with
    | none =>
      simp only [bracketsMonoB, decide_eq_true_eq] at hm
      simp only [bracketTaxAux]
      nlinarith [mul_le_mul_of_nonneg_right (sub_le_sub_right hxy prev) hm]
    | some l =>
      simp only [bracketsMonoB, Bool.and_eq_true, decide_eq_true_eq] at hm
      obtain ⟨⟨hrate, hpl⟩, hrest⟩ := hm
      simp only [bracketTaxAux]
      by_cases hxl : x ≤ l
      · by_cases hyl : y ≤ l
        · rw [if_pos hxl, if_pos hyl]
          nlinarith [mul_le_mul_of_nonneg_right (sub_le_sub_right hxy prev) hrate]
        · rw [if_pos hxl, if_neg hyl]
          push_neg at hyl
          have h1 : tax + (x - prev) * rate ≤ tax + (l - prev) * rate := by
            nlinarith [mul_le_mul_of_nonneg_right (sub_le_sub_right hxl prev) hrate]
          exact h1.trans (bracketTaxAux_ge y rest l _ hrest hyl.le)
      · have hyl : ¬ y ≤ l := fun hyl => hxl (hxy.trans hyl)
        rw [if_neg hxl, if_neg hyl]
        push_neg at hxl
        exact ih l _ hrest hxl.le

theorem calculate_bracket_tax_nonneg (income : ℚ) (brs : List TaxBracket)
    (hm : bracketsMonoB 0 brs = true) : 0 ≤ calculate_bracket_tax income brs := by
  unfold calculate_bracket_tax
  split_ifs with h
  · exact le_refl 0
  · push_neg at h
    exact bracketTaxAux_ge income brs 0 0 hm h.le

theorem calculate_bracket_tax_mono {x y : ℚ} (hxy : x ≤ y) (brs : List TaxBracket)
    (hm : bracketsMonoB 0 brs = true) :
    calculate_bracket_tax x brs ≤ calculate_bracket_tax y brs := by
  unfold calculate_bracket_tax
  split_ifs with hx hy hy
  · exact le_refl 0
  · push_neg at hy
    exact bracketTaxAux_ge y brs 0 0 hm hy.le
  · push_neg at hx; linarith
  · push_neg at hx
    exact bracketTaxAux_mono x y hxy brs 0 0 hm hx.le

/-- C5: For every fixed jurisdiction and every pair of incomes x ≤ y, the
total tax returned by the jurisdiction-accurate tax calculation at x is
less than or equal to the total tax at y (monotonic non-decreasing total
tax in income). -/
theorem tax_total_monotone (province : TaxProvince) (x y : ℚ) (hxy : x ≤ y) :
    (calculate_tax x province).total_tax ≤ (calculate_tax y province).total_tax := by
  have hfed : bracketsMonoB 0 FEDERAL_BRACKETS = true := by decide
  have hprov : bracketsMonoB 0 (PROVINCIAL_BRACKETS province) = true := by
    cases province <;> decide
  unfold calculate_tax
  split_ifs with hx hy hy
  · exact le_refl _
  · push_neg at hy
    dsimp only
    exact round2_nonneg (add_nonneg
      (calculate_bracket_tax_nonneg _ _ hfed)
      (calculate_bracket_tax_nonneg _ _ hprov))
  · push_neg at hx; linarith
  · dsimp only
    apply round2_mono
    apply add_le_add
    · exact calculate_bracket_tax_mono
        (max_le_max (le_refl 0) (sub_le_sub_right hxy _)) _ hfed
    · exact calculate_bracket_tax_mono
        (max_le_max (le_refl 0) (sub_le_sub_right hxy _)) _ hprov

/-- Witness for C5 at Ontario with incomes 50000 ≤ 60000. -/
theorem tax_total_monotone_witness :
    (50000 : ℚ) ≤ 60000 ∧
    (calculate_tax 50000 .ontario).total_tax ≤ (calculate_tax 60000 .ontario).total_tax :=
  ⟨by norm_num, tax_total_monotone .ontario 50000 60000 (by norm_num)⟩

/-- C6: For all ages a below 71 (and at least the supported floor 55), the
mandatory-withdrawal factor equals 1/(90−a) and is monotonically
increasing in a; ages below 55 are an error, not a returned value. -/
theorem rrif_factor_below_71 (a b : ℕ) (ha : 55 ≤ a) (hab : a ≤ b) (hb : b ≤ 70) :
    get_rrif_minimum_factor a = .ok (1 / (90 - (a : ℚ))) ∧
    (∀ x, x < 55 → get_rrif_minimum_factor x = .error .rrifAgeTooLow) ∧
    1 / (90 - (a : ℚ)) ≤ 1 / (90 - (b : ℚ)) ∧
    (a < b → 1 / (90 - (a : ℚ)) < 1 / (90 - (b : ℚ))) := by
  have haq : (a : ℚ) ≤ 70 := by exact_mod_cast le_trans hab hb
  have hbq : (b : ℚ) ≤ 70 := by exact_mod_cast hb
  have habq : (a : ℚ) ≤ (b : ℚ) := by exact_mod_cast hab
  have hb90 : (0 : ℚ) < 90 - (b : ℚ) := by linarith
  refine ⟨?_, ?_, ?_, ?_⟩
  · simp only [get_rrif_minimum_factor, if_neg (by omega : ¬ a < 55),
      if_pos (by omega : a ≤ 70)]
  · intro x hx
    simp only [get_rrif_minimum_factor, if_pos hx]
  · exact one_div_le_one_div_of_le hb90 (by linarith)
  · intro hlt
    have hltq : (a : ℚ) < (b : ℚ) := by exact_mod_cast hlt
    exact one_div_lt_one_div_of_lt hb90 (by linarith)

/-- Witness for C6 at ages 60 and 65. -/
theorem rrif_factor_below_71_witness :
    (55 ≤ 60 ∧ 60 ≤ 65 ∧ 65 ≤ 70) ∧
    (get_rrif_minimum_factor 60 = .ok (1 / (90 - (60 : ℚ))) ∧
     (∀ x, x < 55 → get_rrif_minimum_factor x = .error .rrifAgeTooLow) ∧
     1 / (90 - (60 : ℚ)) ≤ 1 / (90 - (65 : ℚ)) ∧
     (60 < 65 → 1 / (90 - (60 : ℚ)) < 1 / (90 - (65 : ℚ)))) :=
  ⟨by omega, rrif_factor_below_71 60 65 (by omega) (by omega) (by omega)⟩

/-- Counterexample to C4: for the unrecognized jurisdiction string
"Atlantis" and income 50000, the tax calculation raises (a Python
`KeyError`) rather than returning a flat-default-bracket result. -/
theorem unknown_province_atlantis_errors :
    calculate_canadian_tax 50000 "Atlantis" = .error .unknownProvince := by rfl

/-- C4 as amended: for every income and every jurisdiction string that
neither matches a province value nor, upper-cased with spaces replaced by
underscores, a province name, `calculate_canadian_tax` raises the
lookup error instead of returning a result; the single flat default
bracket inside `TaxCalculator.calculate_tax` is unreachable through this
string interface. -/
theorem unknown_province_string_raises (income : ℚ) (s : String)
    (h : provinceOfString s = none) :
    calculate_canadian_tax income s = .error .unknownProvince := by
  unfold calculate_canadian_tax
  rw [h]

/-- Witness for the amended C4 at income -250 and string "Avalon". -/
theorem unknown_province_string_raises_witness :
    provinceOfString "Avalon" = none ∧
    calculate_canadian_tax (-250) "Avalon" = .error .unknownProvince :=
  ⟨by rfl, unknown_province_string_raises (-250) "Avalon" (by rfl)⟩

theorem calculate_pension_for_year_offset (p : PensionIncome) (offset : ℕ)
    (he : p.end_year = none) :
    calculate_pension_for_year (p.start_year + (offset : ℤ)) (some p)
      = p.monthly_amount * 12 * (1 + p.indexing_rate) ^ offset := by
  simp only [calculate_pension_for_year, he]
  rw [if_neg (by omega : ¬ p.start_year + (offset : ℤ) < p.start_year)]
  simp only [pension_indexed_amount]
  have ht : (p.start_year + (offset : ℤ) - p.start_year).toNat = offset := by omega
  rw [ht]
  ring

/-- C9: the engine evaluates each pension at
`year = start_year + (current_age − plan.current_age)`, which is never
below the stream's start year, so a pension with no end year pays
`monthly_amount × 12 × (1 + indexing_rate)^(current_age − plan.current_age)`
in every distribution-phase year — its configured `start_year` never delays
the first payment. -/
theorem pension_start_year_never_delays (plan : RetirementPlanInput)
    (p : PensionIncome) (current_age : ℕ) (hp : plan.pensions = [p])
    (he : p.end_year = none) (hage : plan.current_age ≤ current_age) :
    pensionIncomeTotal plan current_age
      = p.monthly_amount * 12 * (1 + p.indexing_rate) ^ (current_age - plan.current_age) := by
  simp only [pensionIncomeTotal, hp, List.foldl_cons, List.foldl_nil]
  have hk : (current_age : ℤ) - (plan.current_age : ℤ)
      = ((current_age - plan.current_age : ℕ) : ℤ) := by omega
  rw [hk, zero_add]
  exact calculate_pension_for_year_offset p (current_age - plan.current_age) he

/-- Concrete plan for the C9 witness: one lifetime pension of 1500/month
at 2% indexing, holder aged 63 retiring at 65. -/
def c9Plan : RetirementPlanInput :=
  { current_age := 63, retirement_age := 65, life_expectancy := 85,
    province := .bc, rrsp_balance := 200000, tfsa_balance := 50000,
    non_registered := 10000, monthly_contribution := 500,
    cpp_monthly := 1000, desired_annual_spending := 40000,
    pensions := [{ monthly_amount := 1500, start_year := 2025, indexing_rate := 0.02 }] }

/-- Witness for C9 at `c9Plan`, evaluated at age 68 (five years in). -/
theorem pension_start_year_never_delays_witness :
    (c9Plan.pensions = [{ monthly_amount := 1500, start_year := 2025, indexing_rate := 0.02 }] ∧
     c9Plan.current_age ≤ 68) ∧
    pensionIncomeTotal c9Plan 68
      = 1500 * 12 * (1 + (0.02 : ℚ)) ^ (68 - c9Plan.current_age) :=
  ⟨⟨rfl, by decide⟩,
   pension_start_year_never_delays c9Plan
     { monthly_amount := 1500, start_year := 2025, indexing_rate := 0.02 }
     68 rfl rfl (by decide)⟩

/-- A plan that passes every input validator: spouse aged 18, holder 70.
At simulation year 2 the holder is 72 with a positive tax-deferred
balance, and the spousal election gives withdrawal age
min(72, 18 + 2) = 20 < 55. -/
def c10Plan : RetirementPlanInput :=
  { current_age := 70, retirement_age := 70, life_expectancy := 75,
    province := .on, rrsp_balance := 100000, monthly_contribution := 0,
    rrsp_real_return := 0, tfsa_real_return := 0, non_reg_real_return := 0,
    cpp_monthly := 0, desired_annual_spending := 0,
    has_spouse := true, spouse_age := some 18 }

/-- C10: a valid plan (young spouse, holder reaching 72 with a positive
tax-deferred balance) makes `calculate_plan` raise the below-minimum-age
error mid-simulation instead of returning a result. -/
theorem young_spouse_raises_mid_simulation :
    ValidPlan c10Plan ∧ calculate_plan c10Plan = .error .rrifAgeTooLow :=
  ⟨by decide, by rfl⟩

/-- A valid plan whose tax bill can never be covered: retired at 72 with
only a tax-deferred balance, so the mandatory withdrawal is taxed but the
tax-free and taxable accounts are both empty. -/
def c7Plan : RetirementPlanInput :=
  { current_age := 72, retirement_age := 72, life_expectancy := 73,
    province := .on, rrsp_balance := 1000000, monthly_contribution := 0,
    rrsp_real_return := 0, tfsa_real_return := 0, non_reg_real_return := 0,
    cpp_monthly := 0, desired_annual_spending := 0 }

/-- C7 (code bug): on `c7Plan` both simulated years owe estimated taxes
(15640.02 and 15218.47) with the tax-free and taxable balances at zero, so
the tax bill is not covered (`other_withdrawals` stays 0) — yet the
warnings list stays empty and `success` is even `true`: the tax shortfall
does not feed the step-6 warning mechanism, contradicting the comment in
the source's STEP 3 block. -/
theorem tax_shortfall_passes_silently :
    (calculate_plan c7Plan).map (fun out =>
        (out.warnings, out.success,
         out.projections.map (fun pr =>
           (pr.taxes_estimated, pr.other_withdrawals,
            pr.tfsa_balance, pr.non_registered_balance))))
      = .ok ([], true, [(15640.02, 0, 0, 0), (15218.47, 0, 0, 0)]) ∧
    ValidPlan c7Plan :=
  ⟨by rfl, by decide⟩

/-- The income-stream total as the spec words it (step 3 of the
distribution phase): "Sum all active income-stream amounts across pensions
and additional-income lists for the current calendar-equivalent year".
Stated for comparison with the engine's `pensionIncomeTotal`, which reads
only the pensions list. -/
def incomeStreamTotalSpec (plan : RetirementPlanInput) (current_age : ℕ) : ℚ :=
  pensionIncomeTotal plan current_age +
  plan.additional_income.foldl (fun acc s =>
    let projection_year : ℤ :=
      s.start_year + ((current_age : ℤ) - (plan.current_age : ℤ))
    acc + calculate_pension_for_year projection_year
      (some { monthly_amount := s.monthly_amount, start_year := s.start_year,
              end_year := s.end_year, indexing_rate := s.indexing_rate })) 0

/-- A valid plan whose only income stream is in the additional-income
list: 2000/month from the first retirement year. -/
def c2Plan : RetirementPlanInput :=
  { current_age := 65, retirement_age := 65, life_expectancy := 66,
    province := .on, rrsp_balance := 100000, monthly_contribution := 0,
    rrsp_real_return := 0, tfsa_real_return := 0, non_reg_real_return := 0,
    cpp_monthly := 0, desired_annual_spending := 0,
    additional_income := [{ monthly_amount := 2000, start_year := 2025 }] }

/-- C2 (code bug): the engine's projections, warnings, success flag and
final balance on `c2Plan` are identical to those of the same plan with the
additional-income list emptied — the 24000/year stream (present in the
spec's both-lists total, absent from the engine's pensions-only total)
never enters gross income. -/
theorem additional_income_never_enters_gross_income :
    (calculate_plan c2Plan).map (fun out =>
        (out.projections, out.warnings, out.success, out.final_balance))
      = (calculate_plan { c2Plan with additional_income := [] }).map (fun out =>
        (out.projections, out.warnings, out.success, out.final_balance)) ∧
    incomeStreamTotalSpec c2Plan 65 = 24000 ∧
    pensionIncomeTotal c2Plan 65 = 0 ∧
    ValidPlan c2Plan :=
  ⟨by rfl, by decide, by rfl, by decide⟩

/-- A valid, amply funded plan with a cottage sold at age 66: the sale
appends an informational message to the warnings list. -/
def c3Plan : RetirementPlanInput :=
  { current_age := 65, retirement_age := 65, life_expectancy := 67,
    province := .on, rrsp_balance := 1000000, monthly_contribution := 0,
    rrsp_real_return := 0, tfsa_real_return := 0, non_reg_real_return := 0,
    cpp_monthly := 0, desired_annual_spending := 0,
    real_estate_holdings :=
      [{ value := 500000, real_return := 0, sale_age := 66,
         property_type := "cottage" }] }

/-- Is this warning the step-6 insufficient-funds (shortfall) warning? -/
def isInsufficientFunds : Warning → Bool
  | .insufficientFunds _ _ _ => true
  | .propertySale _ _ _ => false

/-- Counterexample to C3: on `c3Plan` the final balance is non-negative
and no shortfall warning was recorded (the only warning is the
informational sale note), yet `success` is `false` — the informational
message does make success false. -/
theorem sale_note_makes_success_false :
    (calculate_plan c3Plan).map (fun out =>
        (decide (0 ≤ out.final_balance),
         out.warnings.any isInsufficientFunds,
         out.warnings.length, out.success))
      = .ok (true, false, 1, false) := by rfl

theorem except_bind_ok {α β : Type} (a : α) (f : α → Except Err β) :
    (Except.ok a >>= f) = f a := rfl

theorem except_bind_error {α β : Type} (e : Err) (f : α → Except Err β) :
    ((Except.error e : Except Err α) >>= f) = Except.error e := rfl

/-- C3 as amended: the success flag equals (final total balance ≥ 0) AND
(the warnings list is empty); since informational sale notes are appended
to the same warnings list, they do make success false. -/
theorem success_iff_nonneg_final_and_no_warnings (plan : RetirementPlanInput)
    (out : RetirementPlanOutput) (h : calculate_plan plan = .ok out) :
    out.success = true ↔ (0 ≤ out.final_balance ∧ out.warnings = []) := by
  unfold calculate_plan at h
  cases hc : calculate_cpp_adjustment plan.cpp_start_age plan.cpp_monthly with
  | error e => rw [hc, except_bind_error] at h; exact absurd h (by simp)
  | ok cpp =>
    rw [hc, except_bind_ok] at h
    dsimp only at h
    cases hr : runYears plan cpp
        (List.range ((plan.life_expectancy : ℤ) - plan.current_age + 1).toNat)
        { rrsp_balance := plan.rrsp_balance, tfsa_balance := plan.tfsa_balance,
          non_reg_balance := plan.non_registered, total_contributions := 0,
          projections := [], warnings := [] } with
    | error e => rw [hr, except_bind_error] at h; exact absurd h (by simp)
    | ok st =>
      rw [hr, except_bind_ok] at h
      cases hl : st.projections.getLast? with
      | none => rw [hl] at h; exact absurd h (by simp)
      | some last =>
        rw [hl] at h
        simp only [Except.ok.injEq] at h
        subst h
        simp only [Bool.and_eq_true, decide_eq_true_eq, List.isEmpty_iff]

/-- A small plan for the C3 witness (no sale, funded, one accumulation
year then two distribution years). -/
def c3wPlan : RetirementPlanInput :=
  { current_age := 64, retirement_age := 65, life_expectancy := 66,
    province := .ab, rrsp_balance := 300000, monthly_contribution := 100,
    rrsp_real_return := 0, tfsa_real_return := 0, non_reg_real_return := 0,
    cpp_monthly := 0, desired_annual_spending := 0 }

/-- The output `calculate_plan` produces on `c3wPlan`. -/
def c3wOut : RetirementPlanOutput :=
  match calculate_plan c3wPlan with
  | .ok out => out
  | .error _ =>
    { input_summary := c3wPlan, years_to_retirement := 0,
      retirement_duration := 0, total_years := 0, projections := [],
      total_contributions := 0, final_balance := 0, success := false,
      warnings := [], recommendations := [] }

/-- Witness for the amended C3 at `c3wPlan`. -/
theorem success_iff_nonneg_final_and_no_warnings_witness :
    (c3wOut.success = true ↔ (0 ≤ c3wOut.final_balance ∧ c3wOut.warnings = [])) :=
  success_iff_nonneg_final_and_no_warnings c3wPlan c3wOut (by rfl)

/-- C8: the mandatory-withdrawal component is exactly zero for every age
strictly below 72 (whatever the plan and balance), even though the rule
set defines positive withdrawal factors from age 55 upward; at age 72 (no
spousal election) the mandatory withdrawal is the positive factor-based
amount, so it is first applied in the year age reaches 72. -/
theorem rrif_mandatory_starts_at_72 :
    (∀ (plan : RetirementPlanInput) (current_age : ℕ) (bal : ℚ),
        current_age < 72 → mandatoryRRIFWithdrawal plan current_age bal = .ok 0) ∧
    (∀ age : ℕ, 55 ≤ age → age ≤ 94 →
        ∃ f, get_rrif_minimum_factor age = .ok f ∧ 0 < f) ∧
    (∀ (plan : RetirementPlanInput) (bal : ℚ),
        plan.spouse_age = none → 0 < bal →
        ∃ w, mandatoryRRIFWithdrawal plan 72 bal = .ok w ∧ 0 < w) := by
  refine ⟨?_, ?_, ?_⟩
  · intro plan current_age bal h
    simp only [mandatoryRRIFWithdrawal, RRIF_MINIMUM_START_AGE]
    rw [if_neg (by omega : ¬ 72 ≤ current_age)]
  · intro age h55 h94
    by_cases h70 : age ≤ 70
    · refine ⟨1 / (90 - (age : ℚ)), ?_, ?_⟩
      · simp only [get_rrif_minimum_factor, if_neg (by omega : ¬ age < 55),
          if_pos h70]
      · have : (age : ℚ) ≤ 70 := by exact_mod_cast h70
        exact div_pos one_pos (by linarith)
    · refine ⟨RRIF_FACTORS age, ?_, ?_⟩
      · simp only [get_rrif_minimum_factor, if_neg (by omega : ¬ age < 55),
          if_neg h70, if_neg (by omega : ¬ 95 ≤ age)]
      · push_neg at h70
        interval_cases age <;> decide
  · intro plan bal hsp hbal
    refine ⟨bal * RRIF_FACTORS 72, ?_, ?_⟩
    · simp only [mandatoryRRIFWithdrawal, RRIF_MINIMUM_START_AGE, hsp,
        if_pos (by omega : 72 ≤ 72), if_neg (by omega : ¬ 100 ≤ 72),
        calculate_rrif_minimum_withdrawal, get_rrif_minimum_factor,
        if_neg (by omega : ¬ (72 : ℕ) < 55), if_neg (by omega : ¬ (72 : ℕ) ≤ 70),
        if_neg (by omega : ¬ 95 ≤ (72 : ℕ)), Except.map]
    · exact mul_pos hbal (by decide)

/-- Witness for C8: age 71 gives a zero mandatory withdrawal on `c7Plan`
(no spouse), age 60 has a positive factor, and age 72 on a positive
balance gives a positive mandatory withdrawal. -/
theorem rrif_mandatory_starts_at_72_witness :
    mandatoryRRIFWithdrawal c7Plan 71 500000 = .ok 0 ∧
    (∃ f, get_rrif_minimum_factor 60 = .ok f ∧ 0 < f) ∧
    (∃ w, mandatoryRRIFWithdrawal c7Plan 72 500000 = .ok w ∧ 0 < w) :=
  ⟨rrif_mandatory_starts_at_72.1 c7Plan 71 500000 (by omega),
   rrif_mandatory_starts_at_72.2.1 60 (by omega) (by omega),
   rrif_mandatory_starts_at_72.2.2 c7Plan 500000 (by rfl) (by norm_num)⟩

theorem sub_min_nonneg (a b : ℚ) : 0 ≤ b - min a b :=
  sub_nonneg.2 (min_le_right a b)

theorem except_bind_ok_iff {α β : Type} {a : Except Err α} {f : α → Except Err β}
    {v : β} (h : (a >>= f) = .ok v) : ∃ x, a = .ok x ∧ f x = .ok v := by
  cases a with
  | error e => rw [except_bind_error] at h; exact absurd h (by simp)
  | ok x => rw [except_bind_ok] at h; exact ⟨x, rfl, h⟩

theorem get_rrif_minimum_factor_bounds {age : ℕ} {f : ℚ}
    (h : get_rrif_minimum_factor age = .ok f) : 0 ≤ f ∧ f ≤ 1 := by
  unfold get_rrif_minimum_factor at h
  by_cases h1 : age < 55
  · rw [if_pos h1] at h
    exact absurd h (by simp)
  · rw [if_neg h1] at h
    by_cases h2 : age ≤ 70
    · rw [if_pos h2] at h
      simp only [Except.ok.injEq] at h
      subst h
      have hq : (age : ℚ) ≤ 70 := by exact_mod_cast h2
      have hpos : (0 : ℚ) < 90 - (age : ℚ) := by linarith
      exact ⟨(div_pos one_pos hpos).le, by rw [div_le_one hpos]; linarith⟩
    · rw [if_neg h2] at h
      by_cases h3 : 95 ≤ age
      · rw [if_pos h3] at h
        simp only [Except.ok.injEq] at h
        subst h
        exact ⟨by decide, by decide⟩
      · rw [if_neg h3] at h
        simp only [Except.ok.injEq] at h
        subst h
        push_neg at h2 h3
        constructor
        · interval_cases age <;> decide
        · interval_cases age <;> decide

theorem calculate_rrif_minimum_withdrawal_bounds {bal w : ℚ} {age : ℕ}
    (hbal : 0 ≤ bal) (h : calculate_rrif_minimum_withdrawal bal age = .ok w) :
    0 ≤ w ∧ w ≤ bal := by
  unfold calculate_rrif_minimum_withdrawal at h
  cases hf : get_rrif_minimum_factor age with
  | error e => rw [hf] at h; exact absurd h (by simp [Except.map])
  | ok f =>
    rw [hf] at h
    simp only [Except.map, Except.ok.injEq] at h
    subst h
    obtain ⟨hf0, hf1⟩ := get_rrif_minimum_factor_bounds hf
    refine ⟨mul_nonneg hbal hf0, ?_⟩
    nlinarith

theorem mandatoryRRIFWithdrawal_bounds {plan : RetirementPlanInput} {age : ℕ}
    {bal w : ℚ} (hbal : 0 ≤ bal)
    (h : mandatoryRRIFWithdrawal plan age bal = .ok w) : 0 ≤ w ∧ w ≤ bal := by
  unfold mandatoryRRIFWithdrawal at h
  split_ifs at h with h1 h2
  · simp only [Except.ok.injEq] at h
    subst h
    exact ⟨hbal, le_refl bal⟩
  · exact calculate_rrif_minimum_withdrawal_bounds hbal h
  · simp only [Except.ok.injEq] at h
    subst h
    exact ⟨le_refl 0, hbal⟩

theorem coverSpendingShortfall_nonneg (year age : ℕ)
    (sp gr tfsa nonreg rrsp rrif : ℚ) (wl : List Warning)
    (ht : 0 ≤ tfsa) (hn : 0 ≤ nonreg) (hr : 0 ≤ rrsp) :
    0 ≤ (coverSpendingShortfall year age sp gr tfsa nonreg rrsp rrif wl).tfsa_balance ∧
    0 ≤ (coverSpendingShortfall year age sp gr tfsa nonreg rrsp rrif wl).non_reg_balance ∧
    0 ≤ (coverSpendingShortfall year age sp gr tfsa nonreg rrsp rrif wl).rrsp_balance := by
  by_cases h : gr < sp
  · rw [coverSpendingShortfall, if_pos h]
    refine ⟨?_, ?_, ?_⟩ <;> dsimp only
    · exact sub_min_nonneg _ _
    · split_ifs with h1
      · exact sub_min_nonneg _ _
      · simpa using hn
    · split_ifs with h1 h2
      · exact sub_min_nonneg _ _
      · simpa using hr
      · exact sub_min_nonneg _ _
      · simpa using hr
  · rw [coverSpendingShortfall, if_neg h]
    exact ⟨ht, hn, hr⟩

theorem coverTaxBill_nonneg (taxes tfsa nonreg other : ℚ)
    (ht : 0 ≤ tfsa) (hn : 0 ≤ nonreg) :
    0 ≤ (coverTaxBill taxes tfsa nonreg other).tfsa_balance ∧
    0 ≤ (coverTaxBill taxes tfsa nonreg other).non_reg_balance := by
  by_cases h : 0 < taxes
  · rw [coverTaxBill, if_pos h]
    refine ⟨?_, ?_⟩ <;> dsimp only
    · split_ifs with h1
      · exact sub_min_nonneg _ _
      · simpa using ht
    · split_ifs with h1 h2
      · exact sub_min_nonneg _ _
      · simpa using hn
      · exact sub_min_nonneg _ _
      · simpa using hn
  · rw [coverTaxBill, if_neg h]
    exact ⟨ht, hn⟩

theorem realEstate_foldl_nonneg (plan : RetirementPlanInput) (age : ℕ) :
    ∀ (hs : List RealEstateHolding) (acc : ℚ × List Warning),
      (∀ h ∈ hs, 0 ≤ h.value ∧ -1 ≤ h.real_return) → 0 ≤ acc.1 →
      0 ≤ (hs.foldl (realEstateStep plan age) acc).1 := by
  intro hs
  induction hs with
  | nil => intro acc _ h; simpa using h
  | cons p rest ih =>
    intro acc hok hacc
    simp only [List.foldl_cons]
    refine ih _ (fun h hm => hok h (List.mem_cons_of_mem _ hm)) ?_
    unfold realEstateStep
    split_ifs with hc
    · dsimp only
      have hv := (hok p (List.mem_cons_self _ _)).1
      have hrr := (hok p (List.mem_cons_self _ _)).2
      have h1r : (0 : ℚ) ≤ 1 + p.real_return := by linarith
      exact add_nonneg hacc (mul_nonneg hv (pow_nonneg h1r _))
    · exact hacc

/-- All account balances of the running state and of every emitted
projection are non-negative. -/
def BalancesOK (st : SimState) : Prop :=
  0 ≤ st.rrsp_balance ∧ 0 ≤ st.tfsa_balance ∧ 0 ≤ st.non_reg_balance ∧
  ∀ pr ∈ st.projections, 0 ≤ pr.rrsp_rrif_balance ∧ 0 ≤ pr.tfsa_balance ∧
    0 ≤ pr.non_registered_balance

/-- The plan facts the balance invariant needs; all are consequences of
`ValidPlan` (growth factors `1 + r` non-negative, contributions and
holding values non-negative). -/
def RatesOK (plan : RetirementPlanInput) : Prop :=
  -1 ≤ plan.rrsp_real_return ∧ -1 ≤ plan.tfsa_real_return ∧
  -1 ≤ plan.non_reg_real_return ∧ 0 ≤ plan.monthly_contribution ∧
  ∀ h ∈ plan.real_estate_holdings, 0 ≤ h.value ∧ -1 ≤ h.real_return

theorem accumulationStep_preserves (plan : RetirementPlanInput) (year : ℕ)
    (st : SimState) (hr : RatesOK plan) (h : BalancesOK st) :
    BalancesOK (accumulationStep plan year st) := by
  obtain ⟨hr1, hr2, hr3, hm, _⟩ := hr
  obtain ⟨h1, h2, h3, h4⟩ := h
  have hc : (0 : ℚ) ≤ plan.monthly_contribution * 12 := by linarith
  have ha : 0 ≤ (st.rrsp_balance + plan.monthly_contribution * 12 * 0.70)
      * (1 + plan.rrsp_real_return) :=
    mul_nonneg (add_nonneg h1 (mul_nonneg hc (by norm_num))) (by linarith)
  have hb : 0 ≤ (st.tfsa_balance + plan.monthly_contribution * 12 * 0.30)
      * (1 + plan.tfsa_real_return) :=
    mul_nonneg (add_nonneg h2 (mul_nonneg hc (by norm_num))) (by linarith)
  have hn : 0 ≤ st.non_reg_balance * (1 + plan.non_reg_real_return) :=
    mul_nonneg h3 (by linarith)
  refine ⟨ha, hb, hn, ?_⟩
  intro pr hpr
  simp only [accumulationStep, List.mem_append, List.mem_singleton] at hpr
  rcases hpr with hpr | rfl
  · exact h4 pr hpr
  · exact ⟨ha, hb, hn⟩

theorem realEstateSales_nonneg (plan : RetirementPlanInput) (age : ℕ)
    (nonreg : ℚ) (wl : List Warning)
    (hok : ∀ h ∈ plan.real_estate_holdings, 0 ≤ h.value ∧ -1 ≤ h.real_return)
    (h : 0 ≤ nonreg) : 0 ≤ (realEstateSales plan age nonreg wl).1 :=
  realEstate_foldl_nonneg plan age plan.real_estate_holdings (nonreg, wl) hok h

theorem distributionStep_preserves (plan : RetirementPlanInput) (cpp : ℚ)
    (year : ℕ) (st st' : SimState) (hr : RatesOK plan) (h : BalancesOK st)
    (hd : distributionStep plan cpp year st = .ok st') : BalancesOK st' := by
  obtain ⟨hr1, hr2, hr3, _, hre⟩ := hr
  obtain ⟨h1, h2, h3, h4⟩ := h
  unfold distributionStep at hd
  dsimp only at hd
  cases hm : mandatoryRRIFWithdrawal plan (plan.current_age + year) st.rrsp_balance with
  | error e => rw [hm, except_bind_error] at hd; exact absurd hd (by simp)
  | ok rrif =>
    rw [hm, except_bind_ok] at hd
    obtain ⟨taxes, htaxes, hpure⟩ := except_bind_ok_iff hd
    simp only [Except.ok.injEq] at hpure
    subst hpure
    obtain ⟨hw0, hwle⟩ := mandatoryRRIFWithdrawal_bounds h1 hm
    have hrrsp0 : 0 ≤ st.rrsp_balance - rrif := by linarith
    refine ⟨?_, ?_, ?_, ?_⟩
    · exact mul_nonneg
        ((coverSpendingShortfall_nonneg _ _ _ _ _ _ _ _ _ h2 h3 hrrsp0).2.2)
        (by linarith)
    · exact mul_nonneg
        ((coverTaxBill_nonneg _ _ _ _
          ((coverSpendingShortfall_nonneg _ _ _ _ _ _ _ _ _ h2 h3 hrrsp0).1)
          ((coverSpendingShortfall_nonneg _ _ _ _ _ _ _ _ _ h2 h3 hrrsp0).2.1)).1)
        (by linarith)
    · exact realEstateSales_nonneg plan _ _ _ hre (mul_nonneg
        ((coverTaxBill_nonneg _ _ _ _
          ((coverSpendingShortfall_nonneg _ _ _ _ _ _ _ _ _ h2 h3 hrrsp0).1)
          ((coverSpendingShortfall_nonneg _ _ _ _ _ _ _ _ _ h2 h3 hrrsp0).2.1)).2)
        (by linarith))
    · intro pr hpr
      simp only [List.mem_append, List.mem_singleton] at hpr
      rcases hpr with hpr | rfl
      · exact h4 pr hpr
      · refine ⟨?_, ?_, ?_⟩
        · exact mul_nonneg
            ((coverSpendingShortfall_nonneg _ _ _ _ _ _ _ _ _ h2 h3 hrrsp0).2.2)
            (by linarith)
        · exact mul_nonneg
            ((coverTaxBill_nonneg _ _ _ _
              ((coverSpendingShortfall_nonneg _ _ _ _ _ _ _ _ _ h2 h3 hrrsp0).1)
              ((coverSpendingShortfall_nonneg _ _ _ _ _ _ _ _ _ h2 h3 hrrsp0).2.1)).1)
            (by linarith)
        · exact realEstateSales_nonneg plan _ _ _ hre (mul_nonneg
            ((coverTaxBill_nonneg _ _ _ _
              ((coverSpendingShortfall_nonneg _ _ _ _ _ _ _ _ _ h2 h3 hrrsp0).1)
              ((coverSpendingShortfall_nonneg _ _ _ _ _ _ _ _ _ h2 h3 hrrsp0).2.1)).2)
            (by linarith))

theorem yearStep_preserves (plan : RetirementPlanInput) (cpp : ℚ) (year : ℕ)
    (st st' : SimState) (hr : RatesOK plan) (h : BalancesOK st)
    (hy : yearStep plan cpp year st = .ok st') : BalancesOK st' := by
  unfold yearStep at hy
  split_ifs at hy with hret
  · exact distributionStep_preserves plan cpp year st st' hr h hy
  · simp only [Except.ok.injEq] at hy
    subst hy
    exact accumulationStep_preserves plan year st hr h

theorem runYears_preserves (plan : RetirementPlanInput) (cpp : ℚ)
    (hr : RatesOK plan) : ∀ (ys : List ℕ) (st st' : SimState),
    BalancesOK st → runYears plan cpp ys st = .ok st' → BalancesOK st' := by
  intro ys
  induction ys with
  | nil =>
    intro st st' h hrun
    unfold runYears at hrun
    simp only [Except.ok.injEq] at hrun
    subst hrun
    exact h
  | cons y ys ih =>
    intro st st' h hrun
    unfold runYears at hrun
    obtain ⟨st1, hy, hrest⟩ := except_bind_ok_iff hrun
    exact ih st1 st' (yearStep_preserves plan cpp y st st1 hr h hy) hrest

/-- C1: for every valid plan, no emitted YearlyProjection has a negative
account balance (tax-deferred, tax-free, or taxable) in any simulated
year — every withdrawal step debits at most the lesser of the amount
needed and the available balance, and mandatory withdrawals use factors
between 0 and 1. -/
theorem engine_no_negative_balances (plan : RetirementPlanInput)
    (hv : ValidPlan plan) (out : RetirementPlanOutput)
    (h : calculate_plan plan = .ok out) :
    ∀ pr ∈ out.projections, 0 ≤ pr.rrsp_rrif_balance ∧ 0 ≤ pr.tfsa_balance ∧
      0 ≤ pr.non_registered_balance := by
  obtain ⟨_, _, _, _, _, _, _, _, h9, h10, h11, h12, _, h14, _, h16, _, h18,
    _, h20, _⟩ := hv
  have hrates : RatesOK plan :=
    ⟨by linarith, by linarith, by linarith, h12,
     fun hh hmem => ⟨(h20 hh hmem).1.le, by linarith [(h20 hh hmem).2.1]⟩⟩
  unfold calculate_plan at h
  cases hc : calculate_cpp_adjustment plan.cpp_start_age plan.cpp_monthly with
  | error e => rw [hc, except_bind_error] at h; exact absurd h (by simp)
  | ok cpp =>
    rw [hc, except_bind_ok] at h
    dsimp only at h
    obtain ⟨st, hrun, hpure⟩ := except_bind_ok_iff h
    have hst : BalancesOK st :=
      runYears_preserves plan cpp hrates _ _ st ⟨h9, h10, h11, by simp⟩ hrun
    cases hl : st.projections.getLast? with
    | none => rw [hl] at hpure; exact absurd hpure (by simp)
    | some last =>
      rw [hl] at hpure
      simp only [Except.ok.injEq] at hpure
      subst hpure
      exact hst.2.2.2

/-- A valid plan for the C1 witness: one accumulation year, two
distribution years, a pension and a property sale at 66. -/
def c1Plan : RetirementPlanInput :=
  { current_age := 64, retirement_age := 65, life_expectancy := 66,
    province := .qc, rrsp_balance := 80000, tfsa_balance := 20000,
    non_registered := 5000, monthly_contribution := 200,
    rrsp_real_return := 0.02, tfsa_real_return := 0.04,
    non_reg_real_return := 0.05,
    real_estate_holdings :=
      [{ value := 300000, real_return := 0.01, sale_age := 66,
         property_type := "rental" }],
    cpp_monthly := 800, desired_annual_spending := 30000,
    pensions := [{ monthly_amount := 1000, start_year := 2025,
                   indexing_rate := 0.02 }] }

/-- The output `calculate_plan` produces on `c1Plan`. -/
def c1Out : RetirementPlanOutput :=
  match calculate_plan c1Plan with
  | .ok out => out
  | .error _ =>
    { input_summary := c1Plan, years_to_retirement := 0,
      retirement_duration := 0, total_years := 0, projections := [],
      total_contributions := 0, final_balance := 0, success := false,
      warnings := [], recommendations := [] }

/-- Witness for C1 at `c1Plan`. -/
theorem engine_no_negative_balances_witness :
    ValidPlan c1Plan ∧
    (∀ pr ∈ c1Out.projections, 0 ≤ pr.rrsp_rrif_balance ∧ 0 ≤ pr.tfsa_balance ∧
      0 ≤ pr.non_registered_balance) :=
  ⟨by decide, engine_no_negative_balances c1Plan (by decide) c1Out (by rfl)⟩
